import Mathlib

/-!
Shallow embedding of the GoodsManagement component of the repository
(the file src/unnamed/part_000): the client-side price prediction, the
supplier risk labelling, the exchange-rate fallback and the state
machine formed by handleSubmit, handleInputChange and
fetchExchangeRate. JavaScript numbers are modelled as rationals; the
result of parseFloat is an Option, with none standing for NaN.
-/

/-- The seven text fields of the entry form. -/
structure FormData where
  goodsId : String
  goodsName : String
  cost : String
  price : String
  date : String
  supplierId : String
  supplierName : String
deriving DecidableEq, Repr

/-- Discrete part of the model of the JavaScript builtin parseFloat:
after leading whitespace and an optional sign, the longest run of
integer digits and, behind a dot, of fractional digits is read and
anything after it is ignored. The result is the sign bit, the value of
the integer digits, the value of the fractional digits and the count of
fractional digits, or none when not a single digit is found. -/
def parseFloatCore (cs0 : List Char) : Option (Bool × ℕ × ℕ × ℕ) :=
  let cs := cs0.dropWhile Char.isWhitespace
  let neg := cs.head? == some '-'
  let cs2 := if neg || (cs.head? == some '+') then cs.tail else cs
  let intPart := cs2.takeWhile Char.isDigit
  let rest := cs2.dropWhile Char.isDigit
  let fracPart := if rest.head? == some '.' then rest.tail.takeWhile Char.isDigit else []
  if intPart.isEmpty && fracPart.isEmpty then none
  else
    some (neg, intPart.foldl (fun a c => 10 * a + (c.toNat - 48)) 0,
      fracPart.foldl (fun a c => 10 * a + (c.toNat - 48)) 0, fracPart.length)

/-- Model of the JavaScript builtin parseFloat restricted to plain
decimal literals; none models NaN. Exponent forms and the word
Infinity are not modelled; no input of this development uses them. -/
def parseFloat (s : String) : Option ℚ :=
  (parseFloatCore s.data).map fun x =>
    (if x.1 then -1 else 1) * ((x.2.1 : ℚ) + (x.2.2.1 : ℚ) / (10 : ℚ) ^ x.2.2.2)

/-- The three fixed day offsets of a prediction scenario. -/
inductive Horizon
  | h30
  | h50
  | h60
deriving DecidableEq, Repr

/-- Day count of a horizon. -/
def Horizon.days : Horizon → ℕ
  | .h30 => 30
  | .h50 => 50
  | .h60 => 60

/-- Projected prices of one scenario at the three day offsets. -/
structure Scenario where
  d30 : ℚ
  d50 : ℚ
  d60 : ℚ
deriving DecidableEq, Repr

/-- Look up the value a scenario assigns to a horizon. -/
def Scenario.atDay (sc : Scenario) : Horizon → ℚ
  | .h30 => sc.d30
  | .h50 => sc.d50
  | .h60 => sc.d60

/-- A prediction block: an up scenario and a down scenario. -/
structure Predictions where
  up : Scenario
  down : Scenario
deriving DecidableEq, Repr

/-- The prediction block handleSubmit builds from the parsed price:
every offset of the up scenario is the price times 1.03 and every
offset of the down scenario is the price times 0.97, exactly as written
in the source. -/
def predictionsOf (p : ℚ) : Predictions :=
  { up := { d30 := p * (103 / 100), d50 := p * (103 / 100), d60 := p * (103 / 100) },
    down := { d30 := p * (97 / 100), d50 := p * (97 / 100), d60 := p * (97 / 100) } }

/-- The three categorical supplier labels, stored as strings as in the
source. -/
structure SupplierPerformance where
  onTimeDelivery : String
  qualityScore : String
  riskLevel : String
deriving DecidableEq, Repr

/-- The three draws of Math.random consumed by one submission, made an
explicit parameter; the source draws each from the interval from 0
inclusive to 1 exclusive. -/
structure Draws where
  r1 : ℚ
  r2 : ℚ
  r3 : ℚ
deriving DecidableEq, Repr

/-- Supplier labelling of the source: three threshold tests on the
three random draws, with no dependence on any field of the submission. -/
def supplierPerformanceOf (r : Draws) : SupplierPerformance :=
  { onTimeDelivery := if r.r1 > 3 / 10 then "Good" else "Poor",
    qualityScore := if r.r2 > 2 / 10 then "High" else "Low",
    riskLevel := if r.r3 > 4 / 10 then "Low" else "High" }

/-- A catalog record as built by handleSubmit: the submitted fields
spread in, the Date.now timestamp as id, the parsed price snapshot, the
prediction block and the supplier labels. The predictions component is
none exactly when the price fails to parse, which in the source yields
a block whose six entries are all NaN. -/
structure GoodsRecord where
  fields : FormData
  id : ℤ
  currentPrice : Option ℚ
  predictions : Option Predictions
  supplierPerformance : SupplierPerformance
deriving DecidableEq, Repr

/-- Component state: the goods list, the loading flag, the error
message, the optional exchange-rate table and the form contents. -/
structure AppState where
  goods : List GoodsRecord
  loading : Bool
  error : String
  exchangeRate : Option (List (String × ℚ))
  formData : FormData
deriving DecidableEq, Repr

/-- The blank form the component starts with and resets to. -/
def emptyForm : FormData :=
  { goodsId := "", goodsName := "", cost := "", price := "", date := "",
    supplierId := "", supplierName := "" }

/-- JavaScript truthiness test of the validation guard: every one of
the seven fields is a non-empty string. -/
def formComplete (f : FormData) : Bool :=
  f.goodsId != "" && f.goodsName != "" && f.cost != "" && f.price != "" &&
    f.date != "" && f.supplierId != "" && f.supplierName != ""

/-- The record handleSubmit constructs from a complete form. -/
def newGoodsOf (f : FormData) (now : ℤ) (r : Draws) : GoodsRecord :=
  { fields := f,
    id := now,
    currentPrice := parseFloat f.price,
    predictions := (parseFloat f.price).map predictionsOf,
    supplierPerformance := supplierPerformanceOf r }

/-- handleSubmit: set loading, clear the error, reject the submission
with a single fixed message when any field is empty, otherwise append
the new record, reset the form and clear loading. now stands for the
Date.now call and r for the three random draws. -/
def handleSubmit (now : ℤ) (r : Draws) (s : AppState) : AppState :=
  let s1 : AppState := { s with loading := true, error := "" }
  if formComplete s.formData then
    { s1 with
      goods := s1.goods ++ [newGoodsOf s.formData now r],
      formData := emptyForm,
      loading := false }
  else
    { s1 with error := "Please fill in all fields", loading := false }

/-- Names of the seven form fields, for handleInputChange. -/
inductive FieldName
  | goodsId
  | goodsName
  | cost
  | price
  | date
  | supplierId
  | supplierName
deriving DecidableEq, Repr

/-- Overwrite one named field of the form. -/
def setField (f : FormData) : FieldName → String → FormData
  | .goodsId, v => { f with goodsId := v }
  | .goodsName, v => { f with goodsName := v }
  | .cost, v => { f with cost := v }
  | .price, v => { f with price := v }
  | .date, v => { f with date := v }
  | .supplierId, v => { f with supplierId := v }
  | .supplierName, v => { f with supplierName := v }

/-- handleInputChange: overwrite one form field, leaving the rest of
the state alone. -/
def handleInputChange (n : FieldName) (v : String) (s : AppState) : AppState :=
  { s with formData := setField s.formData n v }

/-- The fixed fallback rate table of the source. -/
def fallbackRates : List (String × ℚ) :=
  [("USD", 1), ("EUR", 85 / 100), ("GBP", 73 / 100), ("NGN", 460)]

/-- fetchExchangeRate: store the fetched table on success; on any
failure store the fixed fallback table and touch nothing else, the
error message included. -/
def fetchExchangeRate (result : Except String (List (String × ℚ)))
    (s : AppState) : AppState :=
  match result with
  | .ok rates => { s with exchangeRate := some rates }
  | .error _ => { s with exchangeRate := some fallbackRates }

/-- The operations the component can perform on its state. -/
inductive Event
  | submit : ℤ → Draws → Event
  | input : FieldName → String → Event
  | rates : Except String (List (String × ℚ)) → Event

/-- One operation applied to the state. -/
def step : Event → AppState → AppState
  | Event.submit now r, s => handleSubmit now r s
  | Event.input n v, s => handleInputChange n v s
  | Event.rates res, s => fetchExchangeRate res s

/-- A sequence of operations applied in order. -/
def run : List Event → AppState → AppState
  | [], s => s
  | e :: es, s => run es (step e s)

/-- A sample complete submission, taken from the worked example of the
specification. -/
def sampleForm : FormData :=
  { goodsId := "G1", goodsName := "Widget", cost := "5", price := "10",
    date := "2024-01-01", supplierId := "S1", supplierName := "Acme" }

/-- Three mid-range random draws. -/
def sampleDraws : Draws := { r1 := 1 / 2, r2 := 1 / 2, r3 := 1 / 2 }

/-- A state holding the sample submission over an empty catalog. -/
def sampleState : AppState :=
  { goods := [], loading := false, error := "", exchangeRate := none,
    formData := sampleForm }

/-- Evaluation of the sample price. -/
theorem parseFloat_sample : parseFloat "10" = some 10 := by
  rw [parseFloat, show parseFloatCore "10".data = some (false, 10, 0, 0) from rfl]
  norm_num

/-- C1: on every record whose price parses to a positive value p, the
prediction block stored at creation is exactly predictionsOf p, and at
every horizon the up projection strictly exceeds p while p strictly
exceeds the down projection. -/
theorem up_above_price_above_down (f : FormData) (now : ℤ) (r : Draws) (p : ℚ)
    (hp : parseFloat f.price = some p) (hpos : 0 < p) :
    (newGoodsOf f now r).predictions = some (predictionsOf p) ∧
    ∀ h : Horizon,
      p < (predictionsOf p).up.atDay h ∧ (predictionsOf p).down.atDay h < p := by
  refine ⟨by simp [newGoodsOf, hp], ?_⟩
  intro h
  cases h <;> constructor <;> simp [predictionsOf, Scenario.atDay] <;> nlinarith

/-- C1 witness: the sample submission at price 10. -/
theorem up_above_price_above_down_w :
    parseFloat sampleForm.price = some 10 ∧ (0 : ℚ) < 10 ∧
    ((newGoodsOf sampleForm 0 sampleDraws).predictions = some (predictionsOf 10) ∧
      ∀ h : Horizon,
        (10 : ℚ) < (predictionsOf 10).up.atDay h ∧
          (predictionsOf 10).down.atDay h < 10) :=
  ⟨parseFloat_sample, by norm_num,
    up_above_price_above_down sampleForm 0 sampleDraws 10 parseFloat_sample (by norm_num)⟩

/-- C2: within each scenario every one of the three horizons receives
the identical value, the price times 1.03 for up and the price times
0.97 for down; the day offset has no effect on the projected value. -/
theorem horizons_identical (p : ℚ) :
    (∀ h : Horizon, (predictionsOf p).up.atDay h = p * (103 / 100)) ∧
    ∀ h : Horizon, (predictionsOf p).down.atDay h = p * (97 / 100) := by
  constructor <;> intro h <;> cases h <;> rfl

/-- C3: the up projections are monotonically non-decreasing in the
horizon; in the source all three are equal, so the inequality holds. -/
theorem up_monotone (p : ℚ) (h1 h2 : Horizon) (hlt : h1.days < h2.days) :
    (predictionsOf p).up.atDay h1 ≤ (predictionsOf p).up.atDay h2 := by
  cases h1 <;> cases h2 <;> simp [predictionsOf, Scenario.atDay]

/-- C3 witness: price 10 and the horizon pair 30 and 50. -/
theorem up_monotone_w :
    Horizon.h30.days < Horizon.h50.days ∧
    (predictionsOf 10).up.atDay Horizon.h30 ≤ (predictionsOf 10).up.atDay Horizon.h50 :=
  ⟨by decide, up_monotone 10 Horizon.h30 Horizon.h50 (by decide)⟩

/-- Every single operation leaves the stored catalog a left part of the
new one: records are only ever appended. -/
theorem step_goods_extends (e : Event) (s : AppState) :
    ∃ t, (step e s).goods = s.goods ++ t := by
  cases e with
  | submit now r =>
      by_cases hc : formComplete s.formData = true
      · exact ⟨[newGoodsOf s.formData now r], by simp [step, handleSubmit, hc]⟩
      · exact ⟨[], by simp [step, handleSubmit, hc]⟩
  | input n v => exact ⟨[], by simp [step, handleInputChange]⟩
  | rates res => cases res <;> exact ⟨[], by simp [step, fetchExchangeRate]⟩

/-- Every sequence of operations leaves the stored catalog a left part
of the final one: no record is ever removed or rewritten. -/
theorem run_goods_extends (es : List Event) (st : AppState) :
    ∃ t, (run es st).goods = st.goods ++ t := by
  induction es generalizing st with
  | nil => exact ⟨[], by simp [run]⟩
  | cons e es ih =>
      obtain ⟨t1, h1⟩ := step_goods_extends e st
      obtain ⟨t2, h2⟩ := ih (step e st)
      exact ⟨t1 ++ t2, by rw [run, h2, h1, List.append_assoc]⟩

/-- C5: a complete submission appends exactly one record at the end of
the catalog, every previously stored record is unchanged and keeps its
position, the new record snapshots the parsed price as currentPrice,
and no operation of the component ever removes or rewrites a stored
record. -/
theorem add_appends_one (now : ℤ) (r : Draws) (s : AppState)
    (hc : formComplete s.formData = true) :
    (handleSubmit now r s).goods = s.goods ++ [newGoodsOf s.formData now r] ∧
    (handleSubmit now r s).goods.length = s.goods.length + 1 ∧
    (handleSubmit now r s).goods.take s.goods.length = s.goods ∧
    (newGoodsOf s.formData now r).currentPrice = parseFloat s.formData.price ∧
    ∀ es : List Event, ∀ st : AppState, ∃ t, (run es st).goods = st.goods ++ t := by
  have hg : (handleSubmit now r s).goods = s.goods ++ [newGoodsOf s.formData now r] := by
    simp [handleSubmit, hc]
  refine ⟨hg, ?_, ?_, rfl, run_goods_extends⟩
  · rw [hg]; simp
  · rw [hg, List.take_left]

/-- C5 witness: the sample submission over the empty catalog. -/
theorem add_appends_one_w :
    formComplete sampleState.formData = true ∧
    ((handleSubmit 0 sampleDraws sampleState).goods
        = sampleState.goods ++ [newGoodsOf sampleState.formData 0 sampleDraws] ∧
      (handleSubmit 0 sampleDraws sampleState).goods.length
        = sampleState.goods.length + 1 ∧
      (handleSubmit 0 sampleDraws sampleState).goods.take sampleState.goods.length
        = sampleState.goods ∧
      (newGoodsOf sampleState.formData 0 sampleDraws).currentPrice
        = parseFloat sampleState.formData.price ∧
      ∀ es : List Event, ∀ st : AppState, ∃ t, (run es st).goods = st.goods ++ t) :=
  ⟨rfl, add_appends_one 0 sampleDraws sampleState rfl⟩

/-- C6: when at least one of the seven fields is empty the submission
is rejected with the single fixed message, the catalog is untouched and
the loading flag is cleared. -/
theorem empty_field_rejected (now : ℤ) (r : Draws) (s : AppState)
    (h : s.formData.goodsId = "" ∨ s.formData.goodsName = "" ∨
      s.formData.cost = "" ∨ s.formData.price = "" ∨ s.formData.date = "" ∨
      s.formData.supplierId = "" ∨ s.formData.supplierName = "") :
    (handleSubmit now r s).goods = s.goods ∧
    (handleSubmit now r s).error = "Please fill in all fields" ∧
    (handleSubmit now r s).loading = false := by
  have hc : formComplete s.formData = false := by
    rcases h with h|h|h|h|h|h|h <;> simp [formComplete, h]
  refine ⟨?_, ?_, ?_⟩ <;> simp [handleSubmit, hc]

/-- A submission with the supplier name left blank. -/
def missingForm : FormData :=
  { goodsId := "G1", goodsName := "Widget", cost := "5", price := "10",
    date := "2024-01-01", supplierId := "S1", supplierName := "" }

/-- A state holding the incomplete submission. -/
def missingState : AppState :=
  { goods := [], loading := true, error := "", exchangeRate := none,
    formData := missingForm }

/-- C6 witness: the submission with the blank supplier name. -/
theorem empty_field_rejected_w :
    missingState.formData.supplierName = "" ∧
    ((handleSubmit 0 sampleDraws missingState).goods = missingState.goods ∧
      (handleSubmit 0 sampleDraws missingState).error = "Please fill in all fields" ∧
      (handleSubmit 0 sampleDraws missingState).loading = false) :=
  ⟨rfl, empty_field_rejected 0 sampleDraws missingState
    (Or.inr (Or.inr (Or.inr (Or.inr (Or.inr (Or.inr rfl))))))⟩

/-- C8: on any failing fetch the stored table is exactly the fixed
fallback table and nothing else of the state moves; in particular the
error message is untouched, so no error is surfaced to the user. -/
theorem fetch_failure_fallback (e : String) (s : AppState) :
    (fetchExchangeRate (Except.error e) s).exchangeRate = some fallbackRates ∧
    fallbackRates = [("USD", 1), ("EUR", 85 / 100), ("GBP", 73 / 100), ("NGN", 460)] ∧
    (fetchExchangeRate (Except.error e) s).error = s.error ∧
    (fetchExchangeRate (Except.error e) s).goods = s.goods ∧
    (fetchExchangeRate (Except.error e) s).loading = s.loading ∧
    (fetchExchangeRate (Except.error e) s).formData = s.formData :=
  ⟨rfl, rfl, rfl, rfl, rfl, rfl⟩

/-- C9: the supplier labels depend on the random draws alone: with the
draws fixed, any two submissions receive identical labels; each label
lies in its stated two-element set; and two choices of draws exist
whose labels differ. -/
theorem supplier_labels_random_only :
    (∀ r : Draws, ∀ f1 f2 : FormData, ∀ n1 n2 : ℤ,
      (newGoodsOf f1 n1 r).supplierPerformance
        = (newGoodsOf f2 n2 r).supplierPerformance) ∧
    (∀ r : Draws,
      ((supplierPerformanceOf r).onTimeDelivery = "Good" ∨
        (supplierPerformanceOf r).onTimeDelivery = "Poor") ∧
      ((supplierPerformanceOf r).qualityScore = "High" ∨
        (supplierPerformanceOf r).qualityScore = "Low") ∧
      ((supplierPerformanceOf r).riskLevel = "Low" ∨
        (supplierPerformanceOf r).riskLevel = "High")) ∧
    ∃ r1 r2 : Draws, supplierPerformanceOf r1 ≠ supplierPerformanceOf r2 := by
  refine ⟨fun r f1 f2 n1 n2 => rfl, fun r => ?_, ⟨0, 0, 0⟩, ⟨1 / 2, 1 / 2, 1 / 2⟩, ?_⟩
  · unfold supplierPerformanceOf
    refine ⟨?_, ?_, ?_⟩ <;> dsimp only <;> split <;> simp
  · intro hcontra
    have : (supplierPerformanceOf ⟨0, 0, 0⟩).onTimeDelivery
        = (supplierPerformanceOf ⟨1 / 2, 1 / 2, 1 / 2⟩).onTimeDelivery := by
      rw [hcontra]
    rw [show (supplierPerformanceOf ⟨0, 0, 0⟩).onTimeDelivery = "Poor" by
        norm_num [supplierPerformanceOf],
      show (supplierPerformanceOf ⟨1 / 2, 1 / 2, 1 / 2⟩).onTimeDelivery = "Good" by
        norm_num [supplierPerformanceOf]] at this
    exact absurd this (by decide)

/-- C10: a successful submission resets all seven fields to the empty
string; a rejected submission leaves the form, the catalog and the rate
table exactly as submitted, only the error message and the loading flag
moving. -/
theorem form_reset_and_frame (now : ℤ) (r : Draws) (s : AppState) :
    (formComplete s.formData = true → (handleSubmit now r s).formData = emptyForm) ∧
    (formComplete s.formData = false →
      (handleSubmit now r s).formData = s.formData ∧
      (handleSubmit now r s).goods = s.goods ∧
      (handleSubmit now r s).exchangeRate = s.exchangeRate ∧
      (handleSubmit now r s).error = "Please fill in all fields" ∧
      (handleSubmit now r s).loading = false) := by
  constructor
  · intro hc
    simp [handleSubmit, hc]
  · intro hc
    refine ⟨?_, ?_, ?_, ?_, ?_⟩ <;> simp [handleSubmit, hc]

/-- C10 witness: the sample submission resets the form and the blank
supplier name submission is left in place. -/
theorem form_reset_and_frame_w :
    formComplete sampleState.formData = true ∧
    (handleSubmit 0 sampleDraws sampleState).formData = emptyForm ∧
    formComplete missingState.formData = false ∧
    (handleSubmit 0 sampleDraws missingState).formData = missingState.formData :=
  ⟨rfl, (form_reset_and_frame 0 sampleDraws sampleState).1 rfl, rfl,
    ((form_reset_and_frame 0 sampleDraws missingState).2 rfl).1⟩

/-- A complete submission whose price parses to a negative number. -/
def negPriceForm : FormData :=
  { goodsId := "G3", goodsName := "Gizmo", cost := "5", price := "-5",
    date := "2024-01-01", supplierId := "S3", supplierName := "Apex" }

/-- A state holding the negative-price submission. -/
def negPriceState : AppState :=
  { goods := [], loading := false, error := "", exchangeRate := none,
    formData := negPriceForm }

/-- Evaluation of the negative sample price. -/
theorem parseFloat_neg : parseFloat negPriceForm.price = some (-5) := by
  show parseFloat "-5" = some (-5)
  rw [parseFloat, show parseFloatCore "-5".data = some (true, 5, 0, 0) from rfl]
  norm_num

/-- C4 counterexample: a submission whose price parses to -5 is not
rejected: handleSubmit appends a record carrying a fully computed
prediction block and leaves the error message empty, so no InvalidInput
failure occurs anywhere. -/
theorem no_invalid_input_check :
    parseFloat negPriceForm.price = some (-5) ∧
    (handleSubmit 0 sampleDraws negPriceState).goods.length
      = negPriceState.goods.length + 1 ∧
    (newGoodsOf negPriceForm 0 sampleDraws).predictions = some (predictionsOf (-5)) ∧
    (handleSubmit 0 sampleDraws negPriceState).error = "" := by
  have hc : formComplete negPriceState.formData = true := rfl
  refine ⟨parseFloat_neg, ?_, ?_, ?_⟩
  · simp [handleSubmit, hc]
  · simp [newGoodsOf, parseFloat_neg]
  · simp [handleSubmit, hc]

/-- C4 amended: the code performs no positivity check: whenever all
seven fields are non-empty and the price parses to a non-positive
value, handleSubmit appends the record anyway, its prediction block
computed from that value, and reports no error at all. -/
theorem nonpositive_price_accepted (now : ℤ) (r : Draws) (s : AppState) (p : ℚ)
    (hc : formComplete s.formData = true)
    (hp : parseFloat s.formData.price = some p) (hneg : p ≤ 0) :
    (handleSubmit now r s).goods = s.goods ++ [newGoodsOf s.formData now r] ∧
    (newGoodsOf s.formData now r).predictions = some (predictionsOf p) ∧
    (handleSubmit now r s).error = "" := by
  refine ⟨?_, ?_, ?_⟩
  · simp [handleSubmit, hc]
  · simp [newGoodsOf, hp]
  · simp [handleSubmit, hc]

/-- C4 amended witness: the negative-price submission. -/
theorem nonpositive_price_accepted_w :
    formComplete negPriceState.formData = true ∧
    parseFloat negPriceState.formData.price = some (-5) ∧ (-5 : ℚ) ≤ 0 ∧
    ((handleSubmit 0 sampleDraws negPriceState).goods
        = negPriceState.goods ++ [newGoodsOf negPriceState.formData 0 sampleDraws] ∧
      (newGoodsOf negPriceState.formData 0 sampleDraws).predictions
        = some (predictionsOf (-5)) ∧
      (handleSubmit 0 sampleDraws negPriceState).error = "") :=
  ⟨rfl, parseFloat_neg, by norm_num,
    nonpositive_price_accepted 0 sampleDraws negPriceState (-5) rfl
      parseFloat_neg (by norm_num)⟩

/-- A complete submission whose price is not numeric. -/
def nanPriceForm : FormData :=
  { goodsId := "G2", goodsName := "Gadget", cost := "5", price := "abc",
    date := "2024-01-01", supplierId := "S2", supplierName := "Bolt" }

/-- A state holding the non-numeric-price submission. -/
def nanPriceState : AppState :=
  { goods := [], loading := false, error := "", exchangeRate := none,
    formData := nanPriceForm }

/-- Evaluation of the non-numeric sample price. -/
theorem parseFloat_nan : parseFloat nanPriceForm.price = none := by
  show parseFloat "abc" = none
  rw [parseFloat, show parseFloatCore "abc".data = none from rfl]
  rfl

/-- C7 counterexample: the price abc parses to no number at all, yet the
submission passes validation: a record with no parsed current price is
appended and the error message stays empty, so no ValidationError about
invalid numeric fields exists in the code. -/
theorem no_numeric_validation :
    parseFloat nanPriceForm.price = none ∧
    (handleSubmit 0 sampleDraws nanPriceState).goods.length
      = nanPriceState.goods.length + 1 ∧
    (newGoodsOf nanPriceForm 0 sampleDraws).currentPrice = none ∧
    (handleSubmit 0 sampleDraws nanPriceState).error = "" := by
  have hc : formComplete nanPriceState.formData = true := rfl
  refine ⟨parseFloat_nan, ?_, ?_, ?_⟩
  · simp [handleSubmit, hc]
  · simp [newGoodsOf, parseFloat_nan]
  · simp [handleSubmit, hc]

/-- C7 amended: the only validation is non-emptiness of the seven
fields: every complete submission is appended whatever its numeric
fields hold, and the sole error message the submission path can leave
is the empty string or the one fixed sentence, never a list of missing
or invalid fields. -/
theorem only_completeness_validated (now : ℤ) (r : Draws) (s : AppState)
    (hc : formComplete s.formData = true) :
    (handleSubmit now r s).goods.length = s.goods.length + 1 ∧
    (handleSubmit now r s).error = "" ∧
    ∀ st : AppState, (handleSubmit now r st).error = "" ∨
      (handleSubmit now r st).error = "Please fill in all fields" := by
  refine ⟨?_, ?_, ?_⟩
  · simp [handleSubmit, hc]
  · simp [handleSubmit, hc]
  · intro st
    by_cases h : formComplete st.formData = true
    · exact Or.inl (by simp [handleSubmit, h])
    · exact Or.inr (by simp [handleSubmit, h])

/-- C7 amended witness: the non-numeric-price submission. -/
theorem only_completeness_validated_w :
    formComplete nanPriceState.formData = true ∧
    ((handleSubmit 0 sampleDraws nanPriceState).goods.length
        = nanPriceState.goods.length + 1 ∧
      (handleSubmit 0 sampleDraws nanPriceState).error = "" ∧
      ∀ st : AppState, (handleSubmit 0 sampleDraws st).error = "" ∨
        (handleSubmit 0 sampleDraws st).error = "Please fill in all fields") :=
  ⟨rfl, only_completeness_validated 0 sampleDraws nanPriceState rfl⟩
